import Mathlib

/-!
Shallow embedding of the vision capture/analyze store
(`packages/stage-ui/src/stores/modules/vision.ts`).

The store is a single-threaded stateful object. We model its observable
state as a record `VisionState`, and each public operation as a total
Lean function from the state (plus an environment record describing the
outcomes of the external device/provider calls the operation awaits) to
the returned value and the updated state. Media streams and repeating
timers are identified by natural numbers; the sets of streams whose
tracks are still live and of timers still scheduled are carried in the
state (`liveStreams`, `activeTimers`) so that resource-release claims
are expressible. Thrown JavaScript errors are modelled as `Option String`
(the message when the thrown value is an `Error` instance, `none`
otherwise), matching the `error instanceof Error ? error.message :
"Unknown error"` extraction the source performs. Side effects that
claims observe (a frame actually drawn and encoded, a provider request
issued) are returned as an event trace.
-/

namespace Vision

/-- JavaScript `String.prototype.includes`, used by the source on error
messages (`errorMessage.includes("NotAllowedError")` etc.). -/
def strContains (s pat : String) : Bool := decide (pat.toList <:+: s.toList)

/-- JavaScript `String.prototype.startsWith`, used to classify desktop
source ids (`source.id.startsWith("screen:")`). -/
def strStartsWith (s pat : String) : Bool := decide (pat.toList <+: s.toList)

/-- Message extraction `e instanceof Error ? e.message : "Unknown error"`
applied to a thrown value (`some msg` models an `Error` with that message,
`none` a non-`Error` throw). -/
def errText (e : Option String) : String := e.getD "Unknown error"

/-- JavaScript `Math.round (a / b)` for natural `a`, positive `b`:
round half away from zero, which for nonnegative input is `⌊a / b + 1 / 2⌋`. -/
def roundDiv (a b : Nat) : Nat := (2 * a + b) / (2 * b)

/-- Type `CaptureSource = "screen" | "camera" | "window"`. -/
inductive CaptureSource where
  | screen
  | camera
  | window
  deriving DecidableEq, Repr

/-- Type `AnalysisMode = "on-demand" | "continuous"`. -/
inductive AnalysisMode where
  | onDemand
  | continuous
  deriving DecidableEq, Repr

/-- Classification of a desktop source entry (`type: "screen" | "window"`). -/
inductive DesktopSourceType where
  | screen
  | window
  deriving DecidableEq, Repr

/-- Interface `VisionAnalysisResult` (the optional `imageDataUrl` field is
never written by the store, so it is omitted). -/
structure VisionAnalysisResult where
  timestamp : Nat
  description : String
  deriving DecidableEq, Repr

/-- Entry of `availableDesktopSources`. -/
structure DesktopSource where
  id : String
  name : String
  thumbnail : String
  sourceType : DesktopSourceType
  deriving DecidableEq, Repr

/-- Raw entry returned by the `electron.screen.getDesktopSources` IPC call,
before the store classifies it. -/
structure RawDesktopSource where
  id : String
  name : String
  thumbnail : String
  deriving DecidableEq, Repr

/-- Interface `CaptureOptions`. A TypeScript optional property has three
observable states under object spread: absent (`none`), present with value
`undefined` (`some none`, which object spread copies and which therefore
overrides a default), and present with a value (`some (some v)`). -/
structure CaptureOptions where
  maxWidth : Option (Option Nat) := none
  maxHeight : Option (Option Nat) := none
  quality : Option (Option Rat) := none
  deriving DecidableEq, Repr

/-- Result of the spread `{ ...DEFAULT_CAPTURE_OPTIONS, ...options }`: each
field is a definite JavaScript value, possibly `undefined` (`none`). -/
structure MergedCaptureOptions where
  maxWidth : Option Nat
  maxHeight : Option Nat
  quality : Option Rat
  deriving DecidableEq, Repr

/-- Constant `DEFAULT_CAPTURE_OPTIONS = { maxWidth: 1280, maxHeight: 720,
quality: 0.7 }`. -/
def DEFAULT_CAPTURE_OPTIONS : MergedCaptureOptions :=
  { maxWidth := some 1280, maxHeight := some 720, quality := some (7/10) }

/-- Object-spread override for one property: an absent property keeps the
default, a present property (even one holding `undefined`) overrides it. -/
def mergeField {α : Type} (d : Option α) : Option (Option α) → Option α
  | none => d
  | some v => v

/-- The spread `{ ...DEFAULT_CAPTURE_OPTIONS, ...options }` (spreading
`undefined` options is a no-op). -/
def mergeCaptureOptions : Option CaptureOptions → MergedCaptureOptions
  | none => DEFAULT_CAPTURE_OPTIONS
  | some o =>
    { maxWidth := mergeField DEFAULT_CAPTURE_OPTIONS.maxWidth o.maxWidth
      maxHeight := mergeField DEFAULT_CAPTURE_OPTIONS.maxHeight o.maxHeight
      quality := mergeField DEFAULT_CAPTURE_OPTIONS.quality o.quality }

/-- Observable state of the vision store: the persisted settings refs, the
session refs, and the resource bookkeeping (`liveStreams`: streams some of
whose tracks are still live; `activeTimers`: repeating timers not yet
cleared). -/
structure VisionState where
  activeVisionProvider : String
  activeVisionModel : String
  activeCustomModelName : String
  visionModelSearchQuery : String
  captureSource : CaptureSource
  analysisMode : AnalysisMode
  captureIntervalMs : Nat
  compressionQuality : Rat
  maxImageWidth : Nat
  maxImageHeight : Nat
  selectedDesktopSourceId : String
  isCapturing : Bool
  isAnalyzing : Bool
  lastAnalysisResult : Option VisionAnalysisResult
  analysisError : Option String
  currentStream : Option Nat
  previewImageDataUrl : Option String
  availableDesktopSources : List DesktopSource
  isLoadingDesktopSources : Bool
  captureIntervalId : Option Nat
  liveStreams : List Nat
  activeTimers : List Nat
  deriving DecidableEq, Repr

/-- Events a run can emit: a frame drawn to the canvas and encoded (with the
final width, height and JPEG quality), and a text-generation request issued
to the provider (with provider id and model id). -/
inductive VisEvent where
  | frameCapture : Nat → Nat → Rat → VisEvent
  | providerRequest : String → String → VisEvent
  deriving DecidableEq, Repr

/-- Outcomes of the external calls `startCapture` can await. Stream
acquisition outcomes are `Except` values: `ok n` models a resolved
`MediaStream` (identified by `n`), `error e` a rejected promise whose
thrown value has message `e`. -/
structure StartCaptureEnv where
  isElectron : Bool
  hasGetDisplayMedia : Bool
  hasGetUserMedia : Bool
  desktopSources : Except (Option String) (List RawDesktopSource)
  electronUserMedia : Except (Option String) Nat
  displayMedia : Except (Option String) Nat
  cameraMedia : Except (Option String) Nat

/-- Function `stopCapture`: stops every track of the held stream (removing
it from the live set), releases the reference, clears `isCapturing` and the
preview. -/
def stopCapture (s : VisionState) : VisionState :=
  let s :=
    match s.currentStream with
    | some id =>
      { s with liveStreams := s.liveStreams.filter (fun m => m ≠ id), currentStream := none }
    | none => s
  { s with isCapturing := false, previewImageDataUrl := none }

/-- Classification in `fetchDesktopSources`: id prefix `screen:` means a
screen, anything else a window. -/
def classifyRawSource (r : RawDesktopSource) : DesktopSource :=
  { id := r.id, name := r.name, thumbnail := r.thumbnail
    sourceType := if strStartsWith r.id "screen:" then .screen else .window }

/-- Function `fetchDesktopSources`: outside Electron it returns immediately;
otherwise it replaces `availableDesktopSources` with the classified IPC
result on success and clears it on failure, resetting the loading flag in a
`finally` block either way. -/
def fetchDesktopSources (s : VisionState) (isElectron : Bool)
    (res : Except (Option String) (List RawDesktopSource)) : VisionState :=
  if ¬ isElectron then s
  else
    match res with
    | .ok raws =>
      { s with availableDesktopSources := raws.map classifyRawSource
               isLoadingDesktopSources := false }
    | .error _ =>
      { s with availableDesktopSources := []
               isLoadingDesktopSources := false }

/-- Block guarded by `if (!selectedDesktopSourceId.value)` in the Electron
screen/window branch of `startCapture`: fetch the directory, fail if empty,
otherwise auto-select the first source of the requested type (falling back
to the first source of any type). `Except.error` carries an early return of
the whole `startCapture` call. -/
def selectDesktopSource (s : VisionState) (env : StartCaptureEnv) :
    Except (Bool × VisionState) VisionState :=
  if s.selectedDesktopSourceId = "" then
    let s1 := fetchDesktopSources s env.isElectron env.desktopSources
    if s1.availableDesktopSources.isEmpty then
      .error (false, { s1 with analysisError := some "No screen or window sources available." })
    else
      let sourceType :=
        if s1.captureSource = CaptureSource.screen then DesktopSourceType.screen
        else DesktopSourceType.window
      let defaultSource :=
        (s1.availableDesktopSources.find? (fun src => src.sourceType == sourceType)).getD
          (s1.availableDesktopSources.headD
            { id := "", name := "", thumbnail := "", sourceType := DesktopSourceType.window })
      .ok { s1 with selectedDesktopSourceId := defaultSource.id }
  else
    .ok s

/-- Acquisition of a stream: the resolved `MediaStream` is stored in
`currentStream` and its tracks become live. -/
def acquireStream (s : VisionState) (n : Nat) : VisionState :=
  { s with currentStream := some n, liveStreams := s.liveStreams ++ [n] }

/-- Electron screen/window branch of `startCapture` (an `Except.error`
propagates the early return of the source-selection block). -/
def screenWindowElectron (s : VisionState) (env : StartCaptureEnv) :
    Except (Bool × VisionState) VisionState :=
  match selectDesktopSource s env with
  | .error out => .error out
  | .ok s1 =>
    match env.electronUserMedia with
    | .ok n => .ok (acquireStream s1 n)
    | .error e =>
      let msg := "Screen capture failed: " ++ errText e ++ ". Try selecting a different source."
      .error (false, { s1 with analysisError := some msg })

/-- Browser screen/window branch of `startCapture` (`getDisplayMedia`). -/
def screenWindowBrowser (s : VisionState) (env : StartCaptureEnv) :
    Except (Bool × VisionState) VisionState :=
  if ¬ env.hasGetDisplayMedia then
    .error (false, { s with analysisError := some "Screen capture is not supported in this browser." })
  else
    match env.displayMedia with
    | .ok n => .ok (acquireStream s n)
    | .error e =>
      let m := errText e
      let msg :=
        if strContains m "NotAllowedError" || strContains m "Permission denied" then
          "Screen capture was denied. Please allow screen sharing permissions."
        else
          "Screen capture failed: " ++ m
      .error (false, { s with analysisError := some msg })

/-- Camera branch of `startCapture` (`getUserMedia`). -/
def cameraBranch (s : VisionState) (env : StartCaptureEnv) :
    Except (Bool × VisionState) VisionState :=
  if ¬ env.hasGetUserMedia then
    .error (false, { s with analysisError := some "Camera access is not supported in this environment." })
  else
    match env.cameraMedia with
    | .ok n => .ok (acquireStream s n)
    | .error e =>
      let m := errText e
      let msg :=
        if strContains m "NotAllowedError" || strContains m "Permission denied" then
          "Camera access was denied. Please allow camera permissions and try again."
        else if strContains m "NotFoundError" then
          "No camera found. Please connect a camera and try again."
        else
          "Camera capture failed: " ++ m
      .error (false, { s with analysisError := some msg })

/-- Body of `startCapture` after the initial teardown: branches on the
capture source and environment, and on reaching the common tail checks the
stream and sets `isCapturing`. -/
def startCaptureBody (s2 : VisionState) (env : StartCaptureEnv) : Bool × VisionState :=
  let branch :=
    match s2.captureSource with
    | .screen | .window =>
      if env.isElectron then screenWindowElectron s2 env else screenWindowBrowser s2 env
    | .camera => cameraBranch s2 env
  match branch with
  | .error out => out
  | .ok s3 =>
    if s3.currentStream.isNone then
      (false, { s3 with analysisError := some "Failed to start capture stream." })
    else
      (true, { s3 with isCapturing := true })

/-- Function `startCapture`: stops any existing capture, clears the error,
then runs the acquisition body. -/
def startCapture (s : VisionState) (env : StartCaptureEnv) : Bool × VisionState :=
  startCaptureBody { stopCapture s with analysisError := none } env

/-- Outcomes of the external calls `captureFrame` performs: the intrinsic
video dimensions, whether `video.play` (or the readiness wait) throws,
whether `canvas.getContext` succeeds, and the JPEG encoder
`canvas.toDataURL` as a function of the final width, height and quality. -/
structure FrameEnv where
  videoWidth : Nat
  videoHeight : Nat
  playThrows : Option (Option String)
  ctxOk : Bool
  encode : Nat → Nat → Rat → String

/-- First `if` of the scaling step in `captureFrame`: when the width exceeds
`maxWidth`, clamp it and recompute the height proportionally with
`Math.round`. A bound of `none` models a JavaScript comparison against
`undefined`, which is false, so the axis is never rescaled. -/
def scaleW (vw vh : Nat) : Option Nat → Nat × Nat
  | some m => if vw > m then (m, roundDiv (vh * m) vw) else (vw, vh)
  | none => (vw, vh)

/-- Second `if` of the scaling step in `captureFrame`: when the (possibly
already recomputed) height exceeds `maxHeight`, clamp it and recompute the
width proportionally with `Math.round`. -/
def scaleH (w h : Nat) : Option Nat → Nat × Nat
  | some m => if h > m then (roundDiv (w * m) h, m) else (w, h)
  | none => (w, h)

/-- Scaling step of `captureFrame`: shrink into the bounding box while
keeping the aspect ratio, one axis at a time. -/
def scaleDims (vw vh : Nat) (mw mh : Option Nat) : Nat × Nat :=
  let p1 := scaleW vw vh mw
  scaleH p1.1 p1.2 mh

/-- Function `captureFrame`: requires a held stream, merges the options with
the defaults, renders one frame at the scaled dimensions and encodes it at
`opts.quality ?? compressionQuality.value`, storing the data URL as the
preview. Every failure is caught and recorded in `analysisError`. -/
def captureFrame (s : VisionState) (options : Option CaptureOptions) (env : FrameEnv) :
    Option String × VisionState × List VisEvent :=
  match s.currentStream with
  | none =>
    (none, { s with analysisError := some "No capture stream available. Start capture first." }, [])
  | some _ =>
    let opts := mergeCaptureOptions options
    match env.playThrows with
    | some e =>
      (none, { s with analysisError := some ("Failed to capture frame: " ++ errText e) }, [])
    | none =>
      let dims := scaleDims env.videoWidth env.videoHeight opts.maxWidth opts.maxHeight
      if ¬ env.ctxOk then
        (none, { s with analysisError := some "Failed to capture frame: Failed to get canvas context" }, [])
      else
        let q := opts.quality.getD s.compressionQuality
        let dataUrl := env.encode dims.1 dims.2 q
        (some dataUrl, { s with previewImageDataUrl := some dataUrl },
          [VisEvent.frameCapture dims.1 dims.2 q])

/-- Outcomes of the external calls `analyzeImage` performs:
`getProviderInstance` (throw, `null`, or an instance) and `generateText`
(throw, or a response whose `text` field may be `undefined`), plus the
clock read `Date.now()`. -/
structure AnalyzeEnv where
  providerInstance : Except (Option String) Bool
  generate : Except (Option String) (Option String)
  now : Nat

/-- Function `analyzeImage`: fails fast when provider or model is unset,
otherwise sets `isAnalyzing`, clears the error, resolves the provider,
issues one generation request, records the result, and resets `isAnalyzing`
in a `finally` block on every path through the `try`. -/
def analyzeImage (s : VisionState) (imageDataUrl : String) (prompt : Option String)
    (env : AnalyzeEnv) : Option VisionAnalysisResult × VisionState × List VisEvent :=
  if s.activeVisionProvider = "" ∨ s.activeVisionModel = "" then
    (none, { s with analysisError := some "Vision provider and model must be configured" }, [])
  else
    let s1 := { s with isAnalyzing := true, analysisError := none }
    match env.providerInstance with
    | .error e =>
      (none, { s1 with analysisError := some ("Analysis failed: " ++ errText e)
                       isAnalyzing := false }, [])
    | .ok false =>
      (none, { s1 with analysisError := some "Analysis failed: Failed to get provider instance"
                       isAnalyzing := false }, [])
    | .ok true =>
      let modelToUse :=
        if s1.activeCustomModelName ≠ "" then s1.activeCustomModelName else s1.activeVisionModel
      match env.generate with
      | .error e =>
        (none, { s1 with analysisError := some ("Analysis failed: " ++ errText e)
                         isAnalyzing := false },
          [VisEvent.providerRequest s1.activeVisionProvider modelToUse])
      | .ok text =>
        let result : VisionAnalysisResult := { timestamp := env.now, description := text.getD "" }
        (some result, { s1 with lastAnalysisResult := some result, isAnalyzing := false },
          [VisEvent.providerRequest s1.activeVisionProvider modelToUse])

/-- Function `captureAndAnalyze`: capture a frame (with no per-call
options), and only when that yields a data URL run `analyzeImage` on it. -/
def captureAndAnalyze (s : VisionState) (prompt : Option String)
    (fe : FrameEnv) (ae : AnalyzeEnv) :
    Option VisionAnalysisResult × VisionState × List VisEvent :=
  let r1 := captureFrame s none fe
  match r1.1 with
  | none => (none, r1.2.1, r1.2.2)
  | some dataUrl =>
    let r2 := analyzeImage r1.2.1 dataUrl prompt ae
    (r2.1, r2.2.1, r1.2.2 ++ r2.2.2)

/-- Function `stopContinuousCapture`: clear the repeating timer if one is
scheduled. -/
def stopContinuousCapture (s : VisionState) : VisionState :=
  match s.captureIntervalId with
  | some id =>
    { s with captureIntervalId := none
             activeTimers := s.activeTimers.filter (fun t => t ≠ id) }
  | none => s

/-- Function `startContinuousCapture`: a no-op unless the analysis mode is
continuous; otherwise cancel any existing timer, then schedule a fresh
repeating timer (`freshId`). -/
def startContinuousCapture (s : VisionState) (freshId : Nat) : VisionState :=
  if s.analysisMode ≠ AnalysisMode.continuous then s
  else
    let s1 := stopContinuousCapture s
    { s1 with captureIntervalId := some freshId
              activeTimers := s1.activeTimers ++ [freshId] }

/-- Body of the `setInterval` callback installed by
`startContinuousCapture`: run `captureAndAnalyze` only when no analysis is
in flight and capture is active, otherwise do nothing. -/
def continuousTick (s : VisionState) (fe : FrameEnv) (ae : AnalyzeEnv) :
    VisionState × List VisEvent :=
  if !s.isAnalyzing && s.isCapturing then
    let r := captureAndAnalyze s none fe ae
    (r.2.1, r.2.2)
  else
    (s, [])

/-- Modelled from the spec: the `createResettableLocalStorage` and
`createResettableRef` helpers (`packages/stage-ui/src/utils/resettable`,
not part of the provided sources) hand back a ref together with a reset
function that restores the documented default; the defaults are the second
arguments at the creation sites in `vision.ts`. `resetState` stops the
continuous timer and the capture, invokes every reset function, and clears
the transient result, error and preview fields. -/
def resetState (s : VisionState) : VisionState :=
  let s1 := stopContinuousCapture s
  let s2 := stopCapture s1
  { s2 with
    activeVisionProvider := ""
    activeVisionModel := ""
    activeCustomModelName := ""
    visionModelSearchQuery := ""
    captureSource := CaptureSource.screen
    analysisMode := AnalysisMode.onDemand
    captureIntervalMs := 5000
    compressionQuality := 7/10
    maxImageWidth := 1280
    maxImageHeight := 720
    selectedDesktopSourceId := ""
    lastAnalysisResult := none
    analysisError := none
    previewImageDataUrl := none }

/-! ### Helper lemmas -/

/-- Rounded division stays below `c` when `a ≤ b * c`. -/
theorem roundDiv_le (a b c : Nat) (hb : 0 < b) (h : a ≤ b * c) : roundDiv a b ≤ c := by
  unfold roundDiv
  have h2 : 2 * a + b < (c + 1) * (2 * b) := by nlinarith
  have h3 := (Nat.div_lt_iff_lt_mul (by omega : 0 < 2 * b)).mpr h2
  omega

/-- Rounded division is within half a unit of the exact quotient:
`|b * roundDiv a b - a| ≤ b / 2`, stated multiplied through by two. -/
theorem roundDiv_err (a b : Nat) (hb : 0 < b) :
    |2 * ((b : ℤ) * roundDiv a b) - 2 * a| ≤ b := by
  have hmod : 2 * b * roundDiv a b + (2 * a + b) % (2 * b) = 2 * a + b := by
    unfold roundDiv
    exact Nat.div_add_mod _ _
  have hlt : (2 * a + b) % (2 * b) < 2 * b := Nat.mod_lt _ (by omega)
  have hz : 2 * (b : ℤ) * (roundDiv a b : ℤ) + (((2 * a + b) % (2 * b) : ℕ) : ℤ)
      = 2 * (a : ℤ) + b := by
    exact_mod_cast hmod
  have hltz : (((2 * a + b) % (2 * b) : ℕ) : ℤ) < 2 * (b : ℤ) := by exact_mod_cast hlt
  have hge : (0 : ℤ) ≤ (((2 * a + b) % (2 * b) : ℕ) : ℤ) := Int.ofNat_nonneg _
  rw [abs_le]
  constructor <;> linarith

/-- Width-clamping step: never an upscale on either axis, clamps the width,
and leaves a narrow-enough frame alone. -/
theorem scaleW_spec (vw vh m : Nat) :
    (scaleW vw vh (some m)).1 ≤ vw ∧
    (scaleW vw vh (some m)).1 ≤ m ∧
    (scaleW vw vh (some m)).2 ≤ vh ∧
    (vw ≤ m → scaleW vw vh (some m) = (vw, vh)) := by
  simp only [scaleW]
  rcases Nat.lt_or_ge m vw with hw | hw
  · have hb : 0 < vw := by omega
    have h1 : roundDiv (vh * m) vw ≤ vh := roundDiv_le _ _ _ hb (by nlinarith)
    rw [if_pos hw]
    exact ⟨by omega, Nat.le_refl m, h1, by omega⟩
  · rw [if_neg (Nat.not_lt.mpr hw)]
    exact ⟨Nat.le_refl vw, hw, Nat.le_refl vh, fun _ => rfl⟩

/-- Height-clamping step: never an upscale on either axis, clamps the
height, and leaves a short-enough frame alone. -/
theorem scaleH_spec (w h m : Nat) :
    (scaleH w h (some m)).1 ≤ w ∧
    (scaleH w h (some m)).2 ≤ h ∧
    (scaleH w h (some m)).2 ≤ m ∧
    (h ≤ m → scaleH w h (some m) = (w, h)) := by
  simp only [scaleH]
  rcases Nat.lt_or_ge m h with hh | hh
  · have hb : 0 < h := by omega
    have h1 : roundDiv (w * m) h ≤ w := roundDiv_le _ _ _ hb (by nlinarith)
    rw [if_pos hh]
    exact ⟨h1, by omega, Nat.le_refl m, by omega⟩
  · rw [if_neg (Nat.not_lt.mpr hh)]
    exact ⟨Nat.le_refl w, Nat.le_refl h, hh, fun _ => rfl⟩

/-- Behaviour of the scaling step of `captureFrame` with definite numeric
bounds: the result fits in the box, is never an upscale, and a frame
already within the box is returned unchanged. -/
theorem scaleDims_spec (vw vh mw mh : Nat) :
    (scaleDims vw vh (some mw) (some mh)).1 ≤ mw ∧
    (scaleDims vw vh (some mw) (some mh)).2 ≤ mh ∧
    (scaleDims vw vh (some mw) (some mh)).1 ≤ vw ∧
    (scaleDims vw vh (some mw) (some mh)).2 ≤ vh ∧
    (vw ≤ mw → vh ≤ mh → scaleDims vw vh (some mw) (some mh) = (vw, vh)) := by
  have hW := scaleW_spec vw vh mw
  have hH := scaleH_spec (scaleW vw vh (some mw)).1 (scaleW vw vh (some mw)).2 mh
  unfold scaleDims
  refine ⟨Nat.le_trans hH.1 hW.2.1, hH.2.2.1, Nat.le_trans hH.1 hW.1,
    Nat.le_trans hH.2.1 hW.2.2.1, fun h1 h2 => ?_⟩
  show scaleH (scaleW vw vh (some mw)).1 (scaleW vw vh (some mw)).2 (some mh) = (vw, vh)
  rw [hW.2.2.2 h1]
  exact (scaleH_spec vw vh mh).2.2.2 h2

/-- Aspect-ratio preservation of the scaling step, within the integer
rounding of the recomputed axis, for the two single-rescale cases. -/
theorem scaleDims_aspect (vw vh mw mh : Nat) :
    (mw < vw → roundDiv (vh * mw) vw ≤ mh →
      scaleDims vw vh (some mw) (some mh) = (mw, roundDiv (vh * mw) vw) ∧
      |2 * ((vw : ℤ) * (scaleDims vw vh (some mw) (some mh)).2) - 2 * (vh * mw)| ≤ vw) ∧
    (vw ≤ mw → mh < vh →
      scaleDims vw vh (some mw) (some mh) = (roundDiv (vw * mh) vh, mh) ∧
      |2 * ((vh : ℤ) * (scaleDims vw vh (some mw) (some mh)).1) - 2 * (vw * mh)| ≤ vh) := by
  constructor
  · intro hw hfit
    have hb : 0 < vw := by omega
    have herr := roundDiv_err (vh * mw) vw hb
    have hval : scaleDims vw vh (some mw) (some mh) = (mw, roundDiv (vh * mw) vw) := by
      unfold scaleDims scaleW scaleH
      simp only [gt_iff_lt, hw, if_pos, Nat.not_lt.mpr hfit, if_neg, not_false_iff]
    rw [hval]
    refine ⟨rfl, ?_⟩
    push_cast at herr ⊢
    exact herr
  · intro hw hh
    have hb : 0 < vh := by omega
    have herr := roundDiv_err (vw * mh) vh hb
    have hval : scaleDims vw vh (some mw) (some mh) = (roundDiv (vw * mh) vh, mh) := by
      unfold scaleDims scaleW scaleH
      simp only [gt_iff_lt, Nat.not_lt.mpr hw, if_neg, not_false_iff, hh, if_pos]
    rw [hval]
    refine ⟨rfl, ?_⟩
    push_cast at herr ⊢
    exact herr

/-! ### Concrete states and environments used by witnesses -/

/-- State of the store right after initialization: every setting at its
creation default, no stream, no timer, no transient data. -/
def initialState : VisionState :=
  { activeVisionProvider := ""
    activeVisionModel := ""
    activeCustomModelName := ""
    visionModelSearchQuery := ""
    captureSource := CaptureSource.screen
    analysisMode := AnalysisMode.onDemand
    captureIntervalMs := 5000
    compressionQuality := 7/10
    maxImageWidth := 1280
    maxImageHeight := 720
    selectedDesktopSourceId := ""
    isCapturing := false
    isAnalyzing := false
    lastAnalysisResult := none
    analysisError := none
    currentStream := none
    previewImageDataUrl := none
    availableDesktopSources := []
    isLoadingDesktopSources := false
    captureIntervalId := none
    liveStreams := []
    activeTimers := [] }

/-- State with one live stream held, as after a successful `startCapture`. -/
def capturingState : VisionState :=
  { initialState with currentStream := some 1, liveStreams := [1], isCapturing := true }

/-- Frame environment: a 1920 by 1080 source video, working playback and
canvas, and a stub JPEG encoder. -/
def sampleFrameEnv : FrameEnv :=
  { videoWidth := 1920
    videoHeight := 1080
    playThrows := none
    ctxOk := true
    encode := fun _ _ _ => "data:image/jpeg;base64,AAAA" }

/-- Frame environment with a 2000 by 3 source video, exercising the path
on which both bounding-box clamps fire in sequence. -/
def aspectFrameEnv : FrameEnv :=
  { videoWidth := 2000
    videoHeight := 3
    playThrows := none
    ctxOk := true
    encode := fun _ _ _ => "data:image/jpeg;base64,BBBB" }

/-- Per-call options bounding the capture to 1000 by 1. -/
def aspectOptions : CaptureOptions :=
  { maxWidth := some (some 1000), maxHeight := some (some 1), quality := none }

/-- Analyze environment: provider resolves, generation succeeds. -/
def sampleAnalyzeEnv : AnalyzeEnv :=
  { providerInstance := .ok true
    generate := .ok (some "A code editor is open.")
    now := 1000 }

/-- Start environment: a browser with both capture APIs, each acquisition
resolving to a distinct fresh stream. -/
def sampleStartEnv : StartCaptureEnv :=
  { isElectron := false
    hasGetDisplayMedia := true
    hasGetUserMedia := true
    desktopSources := .ok []
    electronUserMedia := .ok 10
    displayMedia := .ok 11
    cameraMedia := .ok 12 }

/-- Concrete state with a configured provider and model holding a live
stream. -/
def configuredState : VisionState :=
  { capturingState with activeVisionProvider := "openai", activeVisionModel := "gpt-4o" }

/-- Invariant that at most one repeating timer is ever scheduled, and it is
the one the store references. -/
def TimerInv (s : VisionState) : Prop :=
  (∀ t, s.captureIntervalId = some t → s.activeTimers = [t]) ∧
  (s.captureIntervalId = none → s.activeTimers = [])

/-- Concrete state in continuous mode with a live stream and timer 7
scheduled. -/
def continuousState : VisionState :=
  { capturingState with
      analysisMode := AnalysisMode.continuous
      captureIntervalId := some 7
      activeTimers := [7] }

/-- State selecting the camera source, otherwise at defaults. -/
def cameraState : VisionState :=
  { initialState with captureSource := CaptureSource.camera }

/-- Environment whose camera acquisition is rejected with a
permission-denial error. -/
def deniedEnv : StartCaptureEnv :=
  { sampleStartEnv with
      cameraMedia := .error (some "NotAllowedError: Permission denied by user") }

/-- Capturing-like state whose live set is empty, for exercising the
double-start scenario from a clean world. -/
def witnessStartState : VisionState :=
  { capturingState with liveStreams := [] }

/-- Second start environment resolving a distinct display stream. -/
def secondStartEnv : StartCaptureEnv :=
  { sampleStartEnv with displayMedia := .ok 13 }

/-- Invariant tying the capturing flag to stream possession:
`isCapturing` is true exactly when a stream reference is held. -/
def CapInv (s : VisionState) : Prop := s.isCapturing = s.currentStream.isSome

/-- Freshness of an environment relative to a state: any stream the device
APIs would resolve is a new object, neither already live nor the currently
held one (browsers hand out fresh `MediaStream` instances). -/
def FreshEnv (s : VisionState) (env : StartCaptureEnv) : Prop :=
  ∀ n, (env.electronUserMedia = Except.ok n ∨ env.displayMedia = Except.ok n
      ∨ env.cameraMedia = Except.ok n) →
    n ∉ s.liveStreams ∧ s.currentStream ≠ some n

/-- Common shape of the three acquisition branches of `startCapture`:
either an early failure return that leaves the capture state untouched
apart from recording an error, or a successful acquisition of a stream the
environment resolved. -/
def BranchSpec (s : VisionState) (res : Except (Bool × VisionState) VisionState)
    (acq : Except (Option String) Nat) : Prop :=
  (∃ s1, res = .error (false, s1) ∧ s1.isCapturing = s.isCapturing ∧
     s1.currentStream = s.currentStream ∧ s1.liveStreams = s.liveStreams ∧
     s1.lastAnalysisResult = s.lastAnalysisResult ∧ s1.analysisError.isSome = true) ∨
  (∃ s1 n, res = .ok (acquireStream s1 n) ∧ acq = Except.ok n ∧
     s1.isCapturing = s.isCapturing ∧ s1.currentStream = s.currentStream ∧
     s1.liveStreams = s.liveStreams ∧ s1.lastAnalysisResult = s.lastAnalysisResult)

/-! ### Reductions of the operations on their main paths -/

/-- Final dimensions a `captureFrame` call draws at. -/
def frameDims (options : Option CaptureOptions) (env : FrameEnv) : Nat × Nat :=
  scaleDims env.videoWidth env.videoHeight
    (mergeCaptureOptions options).maxWidth (mergeCaptureOptions options).maxHeight

/-- JPEG quality a `captureFrame` call encodes at
(`opts.quality ?? compressionQuality.value`). -/
def frameQuality (s : VisionState) (options : Option CaptureOptions) : Rat :=
  ((mergeCaptureOptions options).quality).getD s.compressionQuality

/-- Reduction of `captureFrame` on the success path: a stream is held,
playback works and the canvas context is available. -/
theorem captureFrame_success (s : VisionState) (options : Option CaptureOptions)
    (env : FrameEnv) (n : Nat)
    (hs : s.currentStream = some n) (hp : env.playThrows = none) (hc : env.ctxOk = true) :
    captureFrame s options env =
      (some (env.encode (frameDims options env).1 (frameDims options env).2
          (frameQuality s options)),
       { s with previewImageDataUrl := some (env.encode (frameDims options env).1
          (frameDims options env).2 (frameQuality s options)) },
       [VisEvent.frameCapture (frameDims options env).1 (frameDims options env).2
          (frameQuality s options)]) := by
  unfold captureFrame frameDims frameQuality
  rw [hs, hp, hc]
  simp

/-! ### C6 -/

/-- C6 counterexample: on the path where both clamps fire, the aspect ratio
is not preserved within integer rounding. A 2000 by 3 source under bounds
1000 by 1 is first clamped to width 1000 with height
`Math.round (3 * 1000 / 2000) = 2`, then clamped to height 1 with width
`Math.round (1000 * 1 / 2) = 500`; the aspect-preserving width at the
output height 1 would be `Math.round (2000 * 1 / 3) = 667`, so the output
width deviates from the true ratio by 167, far beyond one unit of
rounding (equivalently, the cross-product error `|500 * 3 - 2000 * 1|`
is 500, far above the height 3). -/
theorem claim_C6_counterexample :
    (captureFrame capturingState (some aspectOptions) aspectFrameEnv).2.2
      = [VisEvent.frameCapture 500 1 (7/10)] ∧
    roundDiv (aspectFrameEnv.videoWidth * 1) aspectFrameEnv.videoHeight = 667 ∧
    (500 : ℤ) + 1 < 667 ∧
    ¬ (|(500 * (aspectFrameEnv.videoHeight : ℤ)) - aspectFrameEnv.videoWidth * 1|
        ≤ aspectFrameEnv.videoHeight) := by
  refine ⟨rfl, rfl, by norm_num, by decide⟩

/-- C6 as amended: for every successful `captureFrame` call (stream held,
playback and canvas work) with effective numeric bounds `mw`, `mh`, the
captured frame has width at most `mw` and height at most `mh`, never
exceeds the source dimensions (shrink only), and is kept at the source
size when the source already fits — all universally; and whenever at most
one axis is rescaled, the recomputed axis is the exact proportional value
up to `Math.round` (twice the cross-product error is at most the divisor).
When both clamps fire in sequence the composition of the two roundings can
leave the source ratio by more than rounding (see the counterexample), so
the aspect clause is stated for the single-rescale paths. -/
theorem claim_C6_captureFrame_dimensions (s : VisionState) (options : Option CaptureOptions)
    (env : FrameEnv) (n mw mh : Nat)
    (hs : s.currentStream = some n) (hp : env.playThrows = none) (hc : env.ctxOk = true)
    (hmw : (mergeCaptureOptions options).maxWidth = some mw)
    (hmh : (mergeCaptureOptions options).maxHeight = some mh) :
    ∃ w h q, (captureFrame s options env).2.2 = [VisEvent.frameCapture w h q] ∧
      (w, h) = scaleDims env.videoWidth env.videoHeight (some mw) (some mh) ∧
      w ≤ mw ∧ h ≤ mh ∧
      w ≤ env.videoWidth ∧ h ≤ env.videoHeight ∧
      (env.videoWidth ≤ mw → env.videoHeight ≤ mh →
        w = env.videoWidth ∧ h = env.videoHeight) ∧
      (mw < env.videoWidth → roundDiv (env.videoHeight * mw) env.videoWidth ≤ mh →
        |2 * ((env.videoWidth : ℤ) * h) - 2 * (env.videoHeight * mw)| ≤ env.videoWidth) ∧
      (env.videoWidth ≤ mw → mh < env.videoHeight →
        |2 * ((env.videoHeight : ℤ) * w) - 2 * (env.videoWidth * mh)| ≤ env.videoHeight) := by
  refine ⟨(frameDims options env).1, (frameDims options env).2, frameQuality s options, ?_⟩
  have hred := captureFrame_success s options env n hs hp hc
  have hdims : frameDims options env
      = scaleDims env.videoWidth env.videoHeight (some mw) (some mh) := by
    unfold frameDims
    rw [hmw, hmh]
  have hspec := scaleDims_spec env.videoWidth env.videoHeight mw mh
  have haspect := scaleDims_aspect env.videoWidth env.videoHeight mw mh
  rw [hred]
  rw [hdims]
  refine ⟨rfl, rfl, hspec.1, hspec.2.1, hspec.2.2.1, hspec.2.2.2.1, ?_, ?_, ?_⟩
  · intro h1 h2
    rw [hspec.2.2.2.2 h1 h2]
    exact ⟨rfl, rfl⟩
  · intro h1 h2
    exact (haspect.1 h1 h2).2
  · intro h1 h2
    exact (haspect.2 h1 h2).2

/-- Witness for C6: the sample 1920 by 1080 frame captured with default
options satisfies the hypotheses. -/
theorem claim_C6_witness :
    capturingState.currentStream = some 1 ∧
    sampleFrameEnv.playThrows = none ∧
    sampleFrameEnv.ctxOk = true ∧
    (mergeCaptureOptions none).maxWidth = some 1280 ∧
    (mergeCaptureOptions none).maxHeight = some 720 ∧
    ∃ w h q, (captureFrame capturingState none sampleFrameEnv).2.2
        = [VisEvent.frameCapture w h q] ∧
      (w, h) = scaleDims sampleFrameEnv.videoWidth sampleFrameEnv.videoHeight
        (some 1280) (some 720) ∧
      w ≤ 1280 ∧ h ≤ 720 ∧
      w ≤ sampleFrameEnv.videoWidth ∧ h ≤ sampleFrameEnv.videoHeight ∧
      (sampleFrameEnv.videoWidth ≤ 1280 → sampleFrameEnv.videoHeight ≤ 720 →
        w = sampleFrameEnv.videoWidth ∧ h = sampleFrameEnv.videoHeight) ∧
      (1280 < sampleFrameEnv.videoWidth →
        roundDiv (sampleFrameEnv.videoHeight * 1280) sampleFrameEnv.videoWidth ≤ 720 →
        |2 * ((sampleFrameEnv.videoWidth : ℤ) * h)
          - 2 * (sampleFrameEnv.videoHeight * 1280)| ≤ sampleFrameEnv.videoWidth) ∧
      (sampleFrameEnv.videoWidth ≤ 1280 → 720 < sampleFrameEnv.videoHeight →
        |2 * ((sampleFrameEnv.videoHeight : ℤ) * w)
          - 2 * (sampleFrameEnv.videoWidth * 720)| ≤ sampleFrameEnv.videoHeight) :=
  ⟨rfl, rfl, rfl, rfl, rfl,
    claim_C6_captureFrame_dimensions capturingState none sampleFrameEnv 1 1280 720
      rfl rfl rfl rfl rfl⟩

/-! ### C7 -/

/-- Reduction of `captureFrame` when no stream is held. -/
theorem captureFrame_none_eq (s : VisionState) (options : Option CaptureOptions)
    (env : FrameEnv) (h : s.currentStream = none) :
    captureFrame s options env =
      (none,
       { s with analysisError := some "No capture stream available. Start capture first." },
       []) := by
  unfold captureFrame
  rw [h]

/-- C7: calling `captureFrame` with no stream held (in particular right
after `stopCapture`) returns empty, records the no-stream message in
`analysisError`, touches nothing else (no preview), and emits no event;
the model is a total function, so nothing is thrown. -/
theorem claim_C7_captureFrame_without_stream (s t : VisionState)
    (options : Option CaptureOptions) (env : FrameEnv)
    (h : s.currentStream = none) :
    captureFrame s options env =
      (none,
       { s with analysisError := some "No capture stream available. Start capture first." },
       []) ∧
    captureFrame (stopCapture t) options env =
      (none,
       { stopCapture t with
           analysisError := some "No capture stream available. Start capture first." },
       []) := by
  have ht : (stopCapture t).currentStream = none := by
    unfold stopCapture
    cases h2 : t.currentStream <;> simp [h2]
  exact ⟨captureFrame_none_eq s options env h, captureFrame_none_eq (stopCapture t) options env ht⟩

/-- Witness for C7: the initial state holds no stream. -/
theorem claim_C7_witness :
    initialState.currentStream = none ∧
    captureFrame initialState none sampleFrameEnv =
      (none,
       { initialState with
           analysisError := some "No capture stream available. Start capture first." },
       []) :=
  ⟨rfl,
    (claim_C7_captureFrame_without_stream initialState initialState none sampleFrameEnv rfl).1⟩

/-! ### C8 -/

/-- C8: `stopCapture` always ends with `isCapturing = false`, the stream
reference released and its tracks stopped, and the preview cleared, while
`lastAnalysisResult` is untouched; calling it again changes nothing
(idempotent, hence safe with no active stream). -/
theorem claim_C8_stopCapture (s : VisionState) :
    (stopCapture s).isCapturing = false ∧
    (stopCapture s).currentStream = none ∧
    (stopCapture s).previewImageDataUrl = none ∧
    (stopCapture s).lastAnalysisResult = s.lastAnalysisResult ∧
    (∀ m, s.currentStream = some m → m ∉ (stopCapture s).liveStreams) ∧
    stopCapture (stopCapture s) = stopCapture s := by
  unfold stopCapture
  cases h : s.currentStream with
  | none => simp [h]
  | some m =>
    simp [h, List.mem_filter]

/-- Witness for C8: stopping the capturing sample state releases stream 1. -/
theorem claim_C8_witness :
    capturingState.currentStream = some 1 ∧
    (1 ∉ (stopCapture capturingState).liveStreams
      ∧ stopCapture (stopCapture capturingState) = stopCapture capturingState) :=
  ⟨rfl,
    (claim_C8_stopCapture capturingState).2.2.2.2.1 1 rfl,
    (claim_C8_stopCapture capturingState).2.2.2.2.2⟩

/-! ### C9 -/

/-- C9: `resetState` stops the continuous timer and the capture, restores
every persisted setting to its documented default, and clears the analysis
result, the error and the preview. The reset helpers are modelled from the
spec (see `resetState`). -/
theorem claim_C9_resetState (s : VisionState) :
    (resetState s).activeVisionProvider = "" ∧
    (resetState s).activeVisionModel = "" ∧
    (resetState s).activeCustomModelName = "" ∧
    (resetState s).visionModelSearchQuery = "" ∧
    (resetState s).captureSource = CaptureSource.screen ∧
    (resetState s).analysisMode = AnalysisMode.onDemand ∧
    (resetState s).captureIntervalMs = 5000 ∧
    (resetState s).compressionQuality = 7/10 ∧
    (resetState s).maxImageWidth = 1280 ∧
    (resetState s).maxImageHeight = 720 ∧
    (resetState s).selectedDesktopSourceId = "" ∧
    (resetState s).lastAnalysisResult = none ∧
    (resetState s).analysisError = none ∧
    (resetState s).previewImageDataUrl = none ∧
    (resetState s).captureIntervalId = none ∧
    (resetState s).currentStream = none ∧
    (resetState s).isCapturing = false := by
  unfold resetState stopCapture stopContinuousCapture
  cases h1 : s.captureIntervalId <;> cases h2 : s.currentStream <;> simp [h1, h2]

/-! ### C10 -/

/-- C10 counterexample: the fallback `?? compressionQuality.value` is
reachable: an options object whose `quality` property is present but
`undefined` (legal for the optional `quality?: number` field) overrides the
default under object spread, so the frame is encoded at the persisted
`compressionQuality` (here 1/2), not at the constant 0.7. -/
theorem claim_C10_counterexample :
    (captureFrame { capturingState with compressionQuality := 1/2 }
        (some { quality := some none }) sampleFrameEnv).2.2 =
      [VisEvent.frameCapture 1280 720 (1/2)] ∧ (1/2 : ℚ) ≠ 7/10 := by
  constructor
  · rfl
  · norm_num

/-- C10 as amended: whenever `options` is not supplied or does not carry a
`quality` property at all, the encoding quality is exactly the constant
default 0.7 and the persisted `compressionQuality` setting is never read
(the result is the same for every value of that setting); the fallback is
reachable only through an explicitly `undefined` `quality` property. -/
theorem claim_C10_default_quality (s : VisionState) (options : Option CaptureOptions)
    (env : FrameEnv) (n : Nat)
    (hs : s.currentStream = some n) (hp : env.playThrows = none) (hc : env.ctxOk = true)
    (hq : options = none ∨ ∃ o, options = some o ∧ o.quality = none) :
    frameQuality s options = 7/10 ∧
    (captureFrame s options env).2.2 =
      [VisEvent.frameCapture (frameDims options env).1 (frameDims options env).2 (7/10)] ∧
    (captureFrame s options env).1 =
      some (env.encode (frameDims options env).1 (frameDims options env).2 (7/10)) := by
  have hqv : frameQuality s options = 7/10 := by
    rcases hq with h | ⟨o, ho, hoq⟩
    · rw [h]
      rfl
    · subst ho
      simp only [frameQuality, mergeCaptureOptions, hoq, mergeField, DEFAULT_CAPTURE_OPTIONS]
      rfl
  have hred := captureFrame_success s options env n hs hp hc
  rw [hred, hqv]
  exact ⟨rfl, rfl, rfl⟩

/-- Witness for C10 (amended): a call with no options on the capturing
sample state encodes at quality 0.7. -/
theorem claim_C10_witness :
    capturingState.currentStream = some 1 ∧
    frameQuality capturingState none = 7/10 ∧
    (captureFrame capturingState none sampleFrameEnv).2.2 =
      [VisEvent.frameCapture (frameDims none sampleFrameEnv).1
        (frameDims none sampleFrameEnv).2 (7/10)] :=
  ⟨rfl,
    (claim_C10_default_quality capturingState none sampleFrameEnv 1 rfl rfl rfl (Or.inl rfl)).1,
    (claim_C10_default_quality capturingState none sampleFrameEnv 1 rfl rfl rfl (Or.inl rfl)).2.1⟩

/-! ### C5 -/

/-- Reduction of `analyzeImage` when provider or model is unset: no
request, no flag change, a descriptive error, an empty result. -/
theorem analyzeImage_unconfigured_eq (s : VisionState) (img : String)
    (prompt : Option String) (env : AnalyzeEnv)
    (h : s.activeVisionProvider = "" ∨ s.activeVisionModel = "") :
    analyzeImage s img prompt env =
      (none,
       { s with analysisError := some "Vision provider and model must be configured" },
       []) := by
  unfold analyzeImage
  rw [if_pos h]

/-- C5: `analyzeImage` never returns with `isAnalyzing` stuck at true: on
the unconfigured early return the state is unchanged except for the error
(no provider request is issued, the result is empty), and on every
configured path the flag is reset to false unconditionally before exit;
hence whenever the flag is false at entry it is false at return. -/
theorem claim_C5_analyzeImage_flag (s : VisionState) (img : String)
    (prompt : Option String) (env : AnalyzeEnv) :
    ((s.activeVisionProvider = "" ∨ s.activeVisionModel = "") →
      analyzeImage s img prompt env =
        (none,
         { s with analysisError := some "Vision provider and model must be configured" },
         [])) ∧
    (¬ (s.activeVisionProvider = "" ∨ s.activeVisionModel = "") →
      (analyzeImage s img prompt env).2.1.isAnalyzing = false) ∧
    (s.isAnalyzing = false → (analyzeImage s img prompt env).2.1.isAnalyzing = false) := by
  by_cases h : s.activeVisionProvider = "" ∨ s.activeVisionModel = ""
  · refine ⟨fun _ => analyzeImage_unconfigured_eq s img prompt env h, fun hn => absurd h hn, ?_⟩
    intro hfl
    rw [analyzeImage_unconfigured_eq s img prompt env h]
    exact hfl
  · have hred : (analyzeImage s img prompt env).2.1.isAnalyzing = false := by
      unfold analyzeImage
      rw [if_neg h]
      cases hpi : env.providerInstance with
      | error e => rfl
      | ok b =>
        cases b with
        | false => rfl
        | true => cases hg : env.generate <;> rfl
    exact ⟨fun hcontra => absurd hcontra h, fun _ => hred, fun _ => hred⟩

/-- Witness for C5: a configured state entering with the flag down leaves
with the flag down. -/
theorem claim_C5_witness :
    (¬ (configuredState.activeVisionProvider = "" ∨ configuredState.activeVisionModel = "")) ∧
    configuredState.isAnalyzing = false ∧
    (analyzeImage configuredState "data:image/jpeg;base64,AAAA" none
      sampleAnalyzeEnv).2.1.isAnalyzing = false :=
  ⟨by simp [configuredState, capturingState, initialState], rfl,
    (claim_C5_analyzeImage_flag configuredState "data:image/jpeg;base64,AAAA" none
      sampleAnalyzeEnv).2.2 rfl⟩

/-! ### C4 -/

/-- C4: `captureAndAnalyze` is `captureFrame` followed by `analyzeImage` on
the captured data URL, short-circuiting to empty (with no provider request)
when framing fails; and when provider or model is unset while a stream is
active, the frame is still captured and the preview still updated before
the configuration check inside `analyzeImage` fails: the result is empty
with the configuration error and a trace holding exactly one frame event
and no provider request. -/
theorem claim_C4_captureAndAnalyze (s : VisionState) (prompt : Option String)
    (fe : FrameEnv) (ae : AnalyzeEnv) :
    ((captureFrame s none fe).1 = none →
      captureAndAnalyze s prompt fe ae
        = (none, (captureFrame s none fe).2.1, (captureFrame s none fe).2.2)) ∧
    (∀ url, (captureFrame s none fe).1 = some url →
      captureAndAnalyze s prompt fe ae =
        ((analyzeImage (captureFrame s none fe).2.1 url prompt ae).1,
         (analyzeImage (captureFrame s none fe).2.1 url prompt ae).2.1,
         (captureFrame s none fe).2.2
           ++ (analyzeImage (captureFrame s none fe).2.1 url prompt ae).2.2)) ∧
    (∀ n, s.currentStream = some n → fe.playThrows = none → fe.ctxOk = true →
      (s.activeVisionProvider = "" ∨ s.activeVisionModel = "") →
      captureAndAnalyze s prompt fe ae =
        (none,
         { s with
             previewImageDataUrl := some (fe.encode (frameDims none fe).1
               (frameDims none fe).2 (frameQuality s none))
             analysisError := some "Vision provider and model must be configured" },
         [VisEvent.frameCapture (frameDims none fe).1 (frameDims none fe).2
            (frameQuality s none)])) := by
  refine ⟨?_, ?_, ?_⟩
  · intro h
    unfold captureAndAnalyze
    dsimp only
    rw [h]
  · intro url h
    unfold captureAndAnalyze
    dsimp only
    rw [h]
  · intro n hs hp hc hcfg
    have hf := captureFrame_success s none fe n hs hp hc
    unfold captureAndAnalyze
    dsimp only
    rw [hf]
    dsimp only
    have hcfg2 : ({ s with previewImageDataUrl := some (fe.encode (frameDims none fe).1
          (frameDims none fe).2 (frameQuality s none)) } : VisionState).activeVisionProvider = ""
        ∨ ({ s with previewImageDataUrl := some (fe.encode (frameDims none fe).1
          (frameDims none fe).2 (frameQuality s none)) } : VisionState).activeVisionModel = "" :=
      hcfg
    rw [analyzeImage_unconfigured_eq _ _ _ ae hcfg2]
    rfl

/-- Witness for C4: on the capturing sample state with no provider
configured, one frame event is emitted and the configuration error is
recorded. -/
theorem claim_C4_witness :
    capturingState.currentStream = some 1 ∧
    sampleFrameEnv.playThrows = none ∧
    sampleFrameEnv.ctxOk = true ∧
    (capturingState.activeVisionProvider = "" ∨ capturingState.activeVisionModel = "") ∧
    captureAndAnalyze capturingState none sampleFrameEnv sampleAnalyzeEnv =
      (none,
       { capturingState with
           previewImageDataUrl := some (sampleFrameEnv.encode (frameDims none sampleFrameEnv).1
             (frameDims none sampleFrameEnv).2 (frameQuality capturingState none))
           analysisError := some "Vision provider and model must be configured" },
       [VisEvent.frameCapture (frameDims none sampleFrameEnv).1
          (frameDims none sampleFrameEnv).2 (frameQuality capturingState none)]) :=
  ⟨rfl, rfl, rfl, Or.inl rfl,
    (claim_C4_captureAndAnalyze capturingState none sampleFrameEnv sampleAnalyzeEnv).2.2
      1 rfl rfl rfl (Or.inl rfl)⟩

/-! ### C2 -/

/-- C2: a continuous-capture tick runs `captureAndAnalyze` only when no
analysis is in flight and capture is active; a tick arriving during an
in-flight analysis (or without capture) changes nothing and emits no event
(dropped, not queued). `startContinuousCapture` is a no-op unless the mode
is continuous, and otherwise always cancels the existing timer before
scheduling the new one, preserving the at-most-one-timer invariant. -/
theorem claim_C2_continuous_tick (s : VisionState) (fe : FrameEnv) (ae : AnalyzeEnv)
    (freshId : Nat) :
    (s.isAnalyzing = true → continuousTick s fe ae = (s, [])) ∧
    (s.isCapturing = false → continuousTick s fe ae = (s, [])) ∧
    (s.isAnalyzing = false → s.isCapturing = true →
      continuousTick s fe ae =
        ((captureAndAnalyze s none fe ae).2.1, (captureAndAnalyze s none fe ae).2.2)) ∧
    (s.analysisMode ≠ AnalysisMode.continuous → startContinuousCapture s freshId = s) ∧
    (s.analysisMode = AnalysisMode.continuous →
      (startContinuousCapture s freshId).captureIntervalId = some freshId ∧
      freshId ∈ (startContinuousCapture s freshId).activeTimers ∧
      ∀ t, s.captureIntervalId = some t → t ≠ freshId →
        t ∉ (startContinuousCapture s freshId).activeTimers) ∧
    (TimerInv s → TimerInv (startContinuousCapture s freshId)) := by
  refine ⟨?_, ?_, ?_, ?_, ?_, ?_⟩
  · intro h
    unfold continuousTick
    rw [h]
    rfl
  · intro h
    unfold continuousTick
    rw [h]
    simp
  · intro h1 h2
    unfold continuousTick
    rw [h1, h2]
    rfl
  · intro h
    unfold startContinuousCapture
    rw [if_pos h]
  · intro h
    have hstart : startContinuousCapture s freshId =
        { stopContinuousCapture s with
            captureIntervalId := some freshId
            activeTimers := (stopContinuousCapture s).activeTimers ++ [freshId] } := by
      unfold startContinuousCapture
      rw [if_neg (fun hc => hc h)]
    refine ⟨by rw [hstart], ?_, ?_⟩
    · rw [hstart]
      exact List.mem_append_right _ (by simp)
    · intro t ht hne
      rw [hstart]
      simp only [List.mem_append]
      rintro (h1 | h1)
      · have hstop : (stopContinuousCapture s).activeTimers
            = s.activeTimers.filter (fun x => x ≠ t) := by
          unfold stopContinuousCapture
          rw [ht]
        rw [hstop] at h1
        have h2 := (List.mem_filter.mp h1).2
        simp at h2
      · simp at h1
        exact hne h1
  · intro hinv
    by_cases h : s.analysisMode = AnalysisMode.continuous
    · have hstart : startContinuousCapture s freshId =
          { stopContinuousCapture s with
              captureIntervalId := some freshId
              activeTimers := (stopContinuousCapture s).activeTimers ++ [freshId] } := by
        unfold startContinuousCapture
        rw [if_neg (fun hc => hc h)]
      have hempty : (stopContinuousCapture s).activeTimers = [] := by
        cases hid : s.captureIntervalId with
        | none =>
          unfold stopContinuousCapture
          rw [hid]
          exact hinv.2 hid
        | some t0 =>
          unfold stopContinuousCapture
          rw [hid]
          dsimp only
          rw [hinv.1 t0 hid]
          simp
      constructor
      · intro t ht
        rw [hstart] at ht
        dsimp only at ht
        cases Option.some.inj ht
        rw [hstart]
        dsimp only
        rw [hempty]
        rfl
      · intro ht
        rw [hstart] at ht
        dsimp only at ht
        exact absurd ht (by simp)
    · have hno : startContinuousCapture s freshId = s := by
        unfold startContinuousCapture
        rw [if_pos h]
      rw [hno]
      exact hinv

/-- Witness for C2: a tick during an in-flight analysis is dropped, and
restarting continuous capture on the sample state replaces timer 7 by
timer 8. -/
theorem claim_C2_witness :
    ({ continuousState with isAnalyzing := true } : VisionState).isAnalyzing = true ∧
    continuousTick { continuousState with isAnalyzing := true } sampleFrameEnv sampleAnalyzeEnv
      = ({ continuousState with isAnalyzing := true }, []) ∧
    continuousState.analysisMode = AnalysisMode.continuous ∧
    (startContinuousCapture continuousState 8).captureIntervalId = some 8 ∧
    8 ∈ (startContinuousCapture continuousState 8).activeTimers :=
  ⟨rfl,
    (claim_C2_continuous_tick { continuousState with isAnalyzing := true }
      sampleFrameEnv sampleAnalyzeEnv 8).1 rfl,
    rfl,
    ((claim_C2_continuous_tick continuousState sampleFrameEnv sampleAnalyzeEnv 8).2.2.2.2.1
      rfl).1,
    ((claim_C2_continuous_tick continuousState sampleFrameEnv sampleAnalyzeEnv 8).2.2.2.2.1
      rfl).2.1⟩

/-! ### Analysis of startCapture -/

/-- Fields of the state `stopCapture` does not touch, and the values of the
ones it sets. -/
theorem stopCapture_fields (s : VisionState) :
    (stopCapture s).isCapturing = false ∧
    (stopCapture s).currentStream = none ∧
    (stopCapture s).previewImageDataUrl = none ∧
    (stopCapture s).captureSource = s.captureSource ∧
    (stopCapture s).lastAnalysisResult = s.lastAnalysisResult ∧
    (stopCapture s).selectedDesktopSourceId = s.selectedDesktopSourceId := by
  unfold stopCapture
  cases h : s.currentStream <;> simp [h]

/-- A state with no live streams still has none after `stopCapture`. -/
theorem stopCapture_liveStreams_nil (s : VisionState) (h : s.liveStreams = []) :
    (stopCapture s).liveStreams = [] := by
  unfold stopCapture
  cases hc : s.currentStream <;> simp [hc, h]

/-- `fetchDesktopSources` only touches the source list and the loading
flag. -/
theorem fetchDesktopSources_fields (s : VisionState) (e : Bool)
    (r : Except (Option String) (List RawDesktopSource)) :
    (fetchDesktopSources s e r).isCapturing = s.isCapturing ∧
    (fetchDesktopSources s e r).currentStream = s.currentStream ∧
    (fetchDesktopSources s e r).liveStreams = s.liveStreams ∧
    (fetchDesktopSources s e r).lastAnalysisResult = s.lastAnalysisResult ∧
    (fetchDesktopSources s e r).analysisError = s.analysisError ∧
    (fetchDesktopSources s e r).captureSource = s.captureSource := by
  unfold fetchDesktopSources
  cases e <;> cases r <;> simp

/-- The source-selection block of the Electron branch either continues with
a state touching only the selection fields, or early-returns false with an
error recorded. -/
theorem selectDesktopSource_spec (s : VisionState) (env : StartCaptureEnv) :
    (∃ s1, selectDesktopSource s env = .ok s1 ∧ s1.isCapturing = s.isCapturing ∧
       s1.currentStream = s.currentStream ∧ s1.liveStreams = s.liveStreams ∧
       s1.lastAnalysisResult = s.lastAnalysisResult) ∨
    (∃ s1, selectDesktopSource s env = .error (false, s1) ∧ s1.isCapturing = s.isCapturing ∧
       s1.currentStream = s.currentStream ∧ s1.liveStreams = s.liveStreams ∧
       s1.lastAnalysisResult = s.lastAnalysisResult ∧ s1.analysisError.isSome = true) := by
  have hf := fetchDesktopSources_fields s env.isElectron env.desktopSources
  unfold selectDesktopSource
  by_cases hid : s.selectedDesktopSourceId = ""
  · rw [if_pos hid]
    cases hemp : (fetchDesktopSources s env.isElectron env.desktopSources).availableDesktopSources.isEmpty
    · rw [if_neg (by rw [hemp]; exact Bool.false_ne_true)]
      left
      exact ⟨_, rfl, hf.1, hf.2.1, hf.2.2.1, hf.2.2.2.1⟩
    · rw [if_pos (by rw [hemp])]
      right
      exact ⟨_, rfl, hf.1, hf.2.1, hf.2.2.1, hf.2.2.2.1, rfl⟩
  · rw [if_neg hid]
    left
    exact ⟨s, rfl, rfl, rfl, rfl, rfl⟩

/-- The Electron screen/window branch satisfies the common branch shape. -/
theorem screenWindowElectron_spec (s : VisionState) (env : StartCaptureEnv) :
    BranchSpec s (screenWindowElectron s env) env.electronUserMedia := by
  unfold BranchSpec screenWindowElectron
  rcases selectDesktopSource_spec s env with ⟨s1, heq, h1, h2, h3, h4⟩ |
    ⟨s1, heq, h1, h2, h3, h4, h5⟩
  · rw [heq]
    cases hm : env.electronUserMedia with
    | ok n =>
      right
      exact ⟨s1, n, rfl, rfl, h1, h2, h3, h4⟩
    | error e =>
      left
      exact ⟨_, rfl, h1, h2, h3, h4, rfl⟩
  · rw [heq]
    left
    exact ⟨s1, rfl, h1, h2, h3, h4, h5⟩

/-- The browser screen/window branch satisfies the common branch shape. -/
theorem screenWindowBrowser_spec (s : VisionState) (env : StartCaptureEnv) :
    BranchSpec s (screenWindowBrowser s env) env.displayMedia := by
  unfold BranchSpec screenWindowBrowser
  cases hg : env.hasGetDisplayMedia
  · rw [if_pos Bool.false_ne_true]
    left
    exact ⟨_, rfl, rfl, rfl, rfl, rfl, rfl⟩
  · rw [if_neg (fun hc => hc rfl)]
    cases hm : env.displayMedia with
    | ok n =>
      right
      exact ⟨s, n, rfl, rfl, rfl, rfl, rfl, rfl⟩
    | error e =>
      left
      exact ⟨_, rfl, rfl, rfl, rfl, rfl, rfl⟩

/-- The camera branch satisfies the common branch shape. -/
theorem cameraBranch_spec (s : VisionState) (env : StartCaptureEnv) :
    BranchSpec s (cameraBranch s env) env.cameraMedia := by
  unfold BranchSpec cameraBranch
  cases hg : env.hasGetUserMedia
  · rw [if_pos Bool.false_ne_true]
    left
    exact ⟨_, rfl, rfl, rfl, rfl, rfl, rfl⟩
  · rw [if_neg (fun hc => hc rfl)]
    cases hm : env.cameraMedia with
    | ok n =>
      right
      exact ⟨s, n, rfl, rfl, rfl, rfl, rfl, rfl⟩
    | error e =>
      left
      exact ⟨_, rfl, rfl, rfl, rfl, rfl, rfl⟩

/-- Processing of the common tail of `startCapture` (the stream check and
the flag set) over a branch result of the common shape. -/
theorem branch_tail_spec (sPre : VisionState)
    (res : Except (Bool × VisionState) VisionState) (acq : Except (Option String) Nat)
    (hspec : BranchSpec sPre res acq)
    (hcap : sPre.isCapturing = false) (hcur : sPre.currentStream = none) :
    (∃ s1, (match res with
        | .error out => out
        | .ok s3 =>
          if s3.currentStream.isNone then
            (false, { s3 with analysisError := some "Failed to start capture stream." })
          else
            (true, { s3 with isCapturing := true })) = (false, s1) ∧
      s1.isCapturing = false ∧ s1.currentStream = none ∧
      s1.liveStreams = sPre.liveStreams ∧ s1.analysisError.isSome = true ∧
      s1.lastAnalysisResult = sPre.lastAnalysisResult) ∨
    (∃ s1 n, (match res with
        | .error out => out
        | .ok s3 =>
          if s3.currentStream.isNone then
            (false, { s3 with analysisError := some "Failed to start capture stream." })
          else
            (true, { s3 with isCapturing := true })) = (true, s1) ∧
      s1.isCapturing = true ∧ s1.currentStream = some n ∧
      s1.liveStreams = sPre.liveStreams ++ [n] ∧ acq = Except.ok n) := by
  rcases hspec with ⟨s1, heq, h1, h2, h3, h4, h5⟩ | ⟨s1, n, heq, hacq, h1, h2, h3, h4⟩
  · rw [heq]
    left
    exact ⟨s1, rfl, by rw [h1, hcap], by rw [h2, hcur], h3, h5, h4⟩
  · rw [heq]
    right
    refine ⟨{ acquireStream s1 n with isCapturing := true }, n, ?_, rfl, rfl, ?_, hacq⟩
    · rfl
    · show s1.liveStreams ++ [n] = sPre.liveStreams ++ [n]
      rw [h3]

/-- Reduction of the acquisition body on a state with the flag down and no
stream held (as `startCapture` prepares it). -/
theorem startCaptureBody_spec (s2 : VisionState) (env : StartCaptureEnv)
    (hcap : s2.isCapturing = false) (hcur : s2.currentStream = none) :
    (∃ s1, startCaptureBody s2 env = (false, s1) ∧ s1.isCapturing = false ∧
       s1.currentStream = none ∧ s1.liveStreams = s2.liveStreams ∧
       s1.analysisError.isSome = true ∧ s1.lastAnalysisResult = s2.lastAnalysisResult) ∨
    (∃ s1 n, startCaptureBody s2 env = (true, s1) ∧ s1.isCapturing = true ∧
       s1.currentStream = some n ∧ s1.liveStreams = s2.liveStreams ++ [n] ∧
       (env.electronUserMedia = Except.ok n ∨ env.displayMedia = Except.ok n ∨
        env.cameraMedia = Except.ok n)) := by
  unfold startCaptureBody
  cases hsrc : s2.captureSource with
  | camera =>
    rcases branch_tail_spec s2 (cameraBranch s2 env) env.cameraMedia
        (cameraBranch_spec s2 env) hcap hcur with
      ⟨s1, heq, h1, h2, h3, h4, h5⟩ | ⟨s1, n, heq, h1, h2, h3, h4⟩
    · exact Or.inl ⟨s1, heq, h1, h2, h3, h4, h5⟩
    · exact Or.inr ⟨s1, n, heq, h1, h2, h3, Or.inr (Or.inr h4)⟩
  | screen =>
    cases he : env.isElectron
    · rcases branch_tail_spec s2 (screenWindowBrowser s2 env) env.displayMedia
          (screenWindowBrowser_spec s2 env) hcap hcur with
        ⟨s1, heq, h1, h2, h3, h4, h5⟩ | ⟨s1, n, heq, h1, h2, h3, h4⟩
      · exact Or.inl ⟨s1, heq, h1, h2, h3, h4, h5⟩
      · exact Or.inr ⟨s1, n, heq, h1, h2, h3, Or.inr (Or.inl h4)⟩
    · rcases branch_tail_spec s2 (screenWindowElectron s2 env) env.electronUserMedia
          (screenWindowElectron_spec s2 env) hcap hcur with
        ⟨s1, heq, h1, h2, h3, h4, h5⟩ | ⟨s1, n, heq, h1, h2, h3, h4⟩
      · exact Or.inl ⟨s1, heq, h1, h2, h3, h4, h5⟩
      · exact Or.inr ⟨s1, n, heq, h1, h2, h3, Or.inl h4⟩
  | window =>
    cases he : env.isElectron
    · rcases branch_tail_spec s2 (screenWindowBrowser s2 env) env.displayMedia
          (screenWindowBrowser_spec s2 env) hcap hcur with
        ⟨s1, heq, h1, h2, h3, h4, h5⟩ | ⟨s1, n, heq, h1, h2, h3, h4⟩
      · exact Or.inl ⟨s1, heq, h1, h2, h3, h4, h5⟩
      · exact Or.inr ⟨s1, n, heq, h1, h2, h3, Or.inr (Or.inl h4)⟩
    · rcases branch_tail_spec s2 (screenWindowElectron s2 env) env.electronUserMedia
          (screenWindowElectron_spec s2 env) hcap hcur with
        ⟨s1, heq, h1, h2, h3, h4, h5⟩ | ⟨s1, n, heq, h1, h2, h3, h4⟩
      · exact Or.inl ⟨s1, heq, h1, h2, h3, h4, h5⟩
      · exact Or.inr ⟨s1, n, heq, h1, h2, h3, Or.inl h4⟩

/-- Master description of `startCapture`: it either fails, returning false
with the flag down, no stream held, the live set exactly as `stopCapture`
left it, and an error recorded while the last analysis result survives; or
it succeeds, returning true holding exactly one freshly resolved stream
appended to the live set `stopCapture` left. -/
theorem startCapture_spec (s : VisionState) (env : StartCaptureEnv) :
    (∃ s1, startCapture s env = (false, s1) ∧ s1.isCapturing = false ∧
       s1.currentStream = none ∧ s1.liveStreams = (stopCapture s).liveStreams ∧
       s1.analysisError.isSome = true ∧ s1.lastAnalysisResult = s.lastAnalysisResult) ∨
    (∃ s1 n, startCapture s env = (true, s1) ∧ s1.isCapturing = true ∧
       s1.currentStream = some n ∧ s1.liveStreams = (stopCapture s).liveStreams ++ [n] ∧
       (env.electronUserMedia = Except.ok n ∨ env.displayMedia = Except.ok n ∨
        env.cameraMedia = Except.ok n)) := by
  have hsf := stopCapture_fields s
  rcases startCaptureBody_spec { stopCapture s with analysisError := none } env
      hsf.1 hsf.2.1 with
    ⟨s1, heq, h1, h2, h3, h4, h5⟩ | ⟨s1, n, heq, h1, h2, h3, h4⟩
  · exact Or.inl ⟨s1, heq, h1, h2, h3, h4, h5.trans hsf.2.2.2.2.1⟩
  · exact Or.inr ⟨s1, n, heq, h1, h2, h3, h4⟩

/-- Reduction of `startCapture` on the camera permission-denial path: the
thrown message matches the denial patterns, so the denial-specific message
is recorded and false returned. -/
theorem startCapture_camera_denied (s : VisionState) (env : StartCaptureEnv)
    (msg : Option String)
    (hsrc : s.captureSource = CaptureSource.camera)
    (hg : env.hasGetUserMedia = true)
    (hcm : env.cameraMedia = .error msg)
    (hden : (strContains (errText msg) "NotAllowedError"
      || strContains (errText msg) "Permission denied") = true) :
    startCapture s env = (false, { stopCapture s with analysisError := some "Camera access was denied. Please allow camera permissions and try again." }) := by
  have hsrc2 : ({ stopCapture s with analysisError := none } : VisionState).captureSource
      = CaptureSource.camera := (stopCapture_fields s).2.2.2.1.trans hsrc
  unfold startCapture startCaptureBody cameraBranch
  rw [hsrc2]
  dsimp only
  rw [hg]
  rw [if_neg (fun hc => hc rfl)]
  rw [hcm]
  dsimp only
  rw [if_pos hden]
  rw [(stopCapture_fields s).2.2.2.1, hsrc]

/-- Teardown half of the exclusivity invariant: whatever stream was held
before `startCapture`, its tracks are stopped and it is no longer live
afterwards, provided the environment hands out fresh streams. -/
theorem startCapture_teardown (s : VisionState) (env : StartCaptureEnv) (m : Nat)
    (hm : s.currentStream = some m) (hfresh : FreshEnv s env) :
    m ∉ (startCapture s env).2.liveStreams := by
  have hstop : (stopCapture s).liveStreams = s.liveStreams.filter (fun x => x ≠ m) := by
    unfold stopCapture
    rw [hm]
  rcases startCapture_spec s env with ⟨s1, heq, _, _, h3, _⟩ | ⟨s1, n, heq, _, _, h3, hacq⟩
  · rw [heq]
    dsimp only
    rw [h3, hstop]
    intro hmem
    have h5 := (List.mem_filter.mp hmem).2
    simp at h5
  · rw [heq]
    dsimp only
    rw [h3, hstop]
    intro hmem
    rcases List.mem_append.mp hmem with hh | hh
    · have h5 := (List.mem_filter.mp hh).2
      simp at h5
    · have hne := (hfresh n hacq).2
      rw [hm] at hne
      simp at hh
      exact hne (by rw [hh])

/-- Success half: a successful `startCapture` holds a stream that is live,
and the live set is exactly the stopped set extended by it. -/
theorem startCapture_success_stream (s : VisionState) (env : StartCaptureEnv)
    (hr : (startCapture s env).1 = true) :
    ∃ n, (startCapture s env).2.currentStream = some n ∧
      n ∈ (startCapture s env).2.liveStreams ∧
      (startCapture s env).2.liveStreams = (stopCapture s).liveStreams ++ [n] := by
  rcases startCapture_spec s env with ⟨s1, heq, _⟩ | ⟨s1, n, heq, h1, h2, h3, _⟩
  · rw [heq] at hr
    exact absurd hr (by simp)
  · rw [heq]
    exact ⟨n, h2, by rw [h3]; simp, h3⟩

/-! ### Preservation of the flag-stream invariant -/

/-- `stopCapture` reestablishes the flag-stream invariant. -/
theorem capInv_stopCapture (s : VisionState) : CapInv (stopCapture s) := by
  unfold CapInv
  rw [(stopCapture_fields s).1, (stopCapture_fields s).2.1]
  rfl

/-- `startCapture` reestablishes the flag-stream invariant. -/
theorem capInv_startCapture (s : VisionState) (env : StartCaptureEnv) :
    CapInv (startCapture s env).2 := by
  rcases startCapture_spec s env with ⟨s1, heq, h1, h2, _⟩ | ⟨s1, n, heq, h1, h2, _⟩ <;>
    rw [heq] <;> unfold CapInv
  · rw [h1, h2]
    rfl
  · rw [h1, h2]
    rfl

/-- `resetState` reestablishes the flag-stream invariant. -/
theorem capInv_resetState (s : VisionState) : CapInv (resetState s) := by
  unfold CapInv resetState stopContinuousCapture stopCapture
  cases h1 : s.captureIntervalId <;> cases h2 : s.currentStream <;> simp [h1, h2]

/-- `captureFrame` preserves the flag-stream invariant. -/
theorem capInv_captureFrame (s : VisionState) (options : Option CaptureOptions)
    (env : FrameEnv) (h : CapInv s) : CapInv (captureFrame s options env).2.1 := by
  unfold captureFrame
  split
  · exact h
  · split
    · exact h
    · split
      · exact h
      · exact h

/-- `analyzeImage` preserves the flag-stream invariant. -/
theorem capInv_analyzeImage (s : VisionState) (img : String) (prompt : Option String)
    (env : AnalyzeEnv) (h : CapInv s) : CapInv (analyzeImage s img prompt env).2.1 := by
  unfold analyzeImage
  split
  · exact h
  · split
    · exact h
    · exact h
    · split
      · exact h
      · exact h

/-- `captureAndAnalyze` preserves the flag-stream invariant. -/
theorem capInv_captureAndAnalyze (s : VisionState) (prompt : Option String)
    (fe : FrameEnv) (ae : AnalyzeEnv) (h : CapInv s) :
    CapInv (captureAndAnalyze s prompt fe ae).2.1 := by
  unfold captureAndAnalyze
  dsimp only
  split
  · exact capInv_captureFrame s none fe h
  · exact capInv_analyzeImage _ _ _ _ (capInv_captureFrame s none fe h)

/-- A continuous tick preserves the flag-stream invariant. -/
theorem capInv_continuousTick (s : VisionState) (fe : FrameEnv) (ae : AnalyzeEnv)
    (h : CapInv s) : CapInv (continuousTick s fe ae).1 := by
  unfold continuousTick
  split
  · exact capInv_captureAndAnalyze s none fe ae h
  · exact h

/-- `startContinuousCapture` preserves the flag-stream invariant. -/
theorem capInv_startContinuousCapture (s : VisionState) (freshId : Nat)
    (h : CapInv s) : CapInv (startContinuousCapture s freshId) := by
  unfold startContinuousCapture stopContinuousCapture
  split
  · exact h
  · split
    · exact h
    · exact h

/-- `stopContinuousCapture` preserves the flag-stream invariant. -/
theorem capInv_stopContinuousCapture (s : VisionState) (h : CapInv s) :
    CapInv (stopContinuousCapture s) := by
  unfold stopContinuousCapture
  split
  · exact h
  · exact h

/-- `fetchDesktopSources` preserves the flag-stream invariant. -/
theorem capInv_fetchDesktopSources (s : VisionState) (e : Bool)
    (r : Except (Option String) (List RawDesktopSource)) (h : CapInv s) :
    CapInv (fetchDesktopSources s e r) := by
  have hf := fetchDesktopSources_fields s e r
  unfold CapInv
  rw [hf.1, hf.2.1]
  exact h

/-! ### C3 -/

/-- C3: every failing execution of `startCapture` (any source, any
environment branch) returns false with `isCapturing` still false and a
human-readable message in `analysisError`; every succeeding one returns
true with `isCapturing` true; and the camera permission-denial scenario
produces the denial-specific message. The model is total, so no failure
escapes as an exception. -/
theorem claim_C3_startCapture_failure (s : VisionState) (env : StartCaptureEnv)
    (msg : Option String) :
    ((startCapture s env).1 = false →
      (startCapture s env).2.isCapturing = false ∧
      ((startCapture s env).2.analysisError).isSome = true) ∧
    ((startCapture s env).1 = true → (startCapture s env).2.isCapturing = true) ∧
    (s.captureSource = CaptureSource.camera → env.hasGetUserMedia = true →
      env.cameraMedia = .error msg →
      (strContains (errText msg) "NotAllowedError"
        || strContains (errText msg) "Permission denied") = true →
      startCapture s env = (false, { stopCapture s with analysisError := some "Camera access was denied. Please allow camera permissions and try again." }) ∧
      (startCapture s env).2.isCapturing = false) := by
  refine ⟨?_, ?_, ?_⟩
  · intro hr
    rcases startCapture_spec s env with ⟨s1, heq, h1, h2, h3, h4, h5⟩ | ⟨s1, n, heq, _⟩
    · rw [heq]
      exact ⟨h1, h4⟩
    · rw [heq] at hr
      exact absurd hr (by simp)
  · intro hr
    rcases startCapture_spec s env with ⟨s1, heq, _⟩ | ⟨s1, n, heq, h1, _⟩
    · rw [heq] at hr
      exact absurd hr (by simp)
    · rw [heq]
      exact h1
  · intro h1 h2 h3 h4
    have heq := startCapture_camera_denied s env msg h1 h2 h3 h4
    refine ⟨heq, ?_⟩
    rw [heq]
    exact (stopCapture_fields s).1

/-- Witness for C3: camera source with a denied permission gets the
denial-specific message and returns false. -/
theorem claim_C3_witness :
    cameraState.captureSource = CaptureSource.camera ∧
    deniedEnv.hasGetUserMedia = true ∧
    deniedEnv.cameraMedia = .error (some "NotAllowedError: Permission denied by user") ∧
    (strContains (errText (some "NotAllowedError: Permission denied by user")) "NotAllowedError"
      || strContains (errText (some "NotAllowedError: Permission denied by user"))
          "Permission denied") = true ∧
    startCapture cameraState deniedEnv = (false, { stopCapture cameraState with analysisError := some "Camera access was denied. Please allow camera permissions and try again." }) :=
  ⟨rfl, rfl, rfl, by decide,
    ((claim_C3_startCapture_failure cameraState deniedEnv
        (some "NotAllowedError: Permission denied by user")).2.2
      rfl rfl rfl (by decide)).1⟩

/-! ### C1 -/

/-- C1: at most one live stream at a time. A fresh-environment
`startCapture` makes the previously held stream dead (teardown precedes
acquisition); a successful call holds a live stream; two consecutive
successful calls from a clean world leave exactly the second stream live
and the first one dead; and the flag-stream invariant `isCapturing` iff
`currentStream` is held (`CapInv`) is established by `startCapture`,
`stopCapture` and `resetState` and preserved by every other public
operation. -/
theorem claim_C1_single_stream (s : VisionState) (env e2 : StartCaptureEnv)
    (options : Option CaptureOptions) (img : String) (prompt : Option String)
    (fe : FrameEnv) (ae : AnalyzeEnv) (freshId : Nat) :
    (∀ m, s.currentStream = some m → FreshEnv s env →
       m ∉ (startCapture s env).2.liveStreams) ∧
    ((startCapture s env).1 = true →
       ∃ n, (startCapture s env).2.currentStream = some n ∧
         n ∈ (startCapture s env).2.liveStreams) ∧
    (s.liveStreams = [] → (startCapture s env).1 = true →
       (startCapture (startCapture s env).2 e2).1 = true →
       FreshEnv (startCapture s env).2 e2 →
       ∃ n2, (startCapture (startCapture s env).2 e2).2.currentStream = some n2 ∧
         (startCapture (startCapture s env).2 e2).2.liveStreams = [n2] ∧
         ∀ m, (startCapture s env).2.currentStream = some m →
           m ∉ (startCapture (startCapture s env).2 e2).2.liveStreams) ∧
    CapInv (startCapture s env).2 ∧
    CapInv (stopCapture s) ∧
    CapInv (resetState s) ∧
    (CapInv s → CapInv (captureFrame s options fe).2.1) ∧
    (CapInv s → CapInv (analyzeImage s img prompt ae).2.1) ∧
    (CapInv s → CapInv (captureAndAnalyze s prompt fe ae).2.1) ∧
    (CapInv s → CapInv (continuousTick s fe ae).1) ∧
    (CapInv s → CapInv (startContinuousCapture s freshId)) ∧
    (CapInv s → CapInv (stopContinuousCapture s)) ∧
    (CapInv s → CapInv (fetchDesktopSources s env.isElectron env.desktopSources)) := by
  refine ⟨fun m hm hf => startCapture_teardown s env m hm hf, ?_, ?_,
    capInv_startCapture s env, capInv_stopCapture s, capInv_resetState s,
    capInv_captureFrame s options fe, capInv_analyzeImage s img prompt ae,
    capInv_captureAndAnalyze s prompt fe ae, capInv_continuousTick s fe ae,
    capInv_startContinuousCapture s freshId, capInv_stopContinuousCapture s,
    capInv_fetchDesktopSources s env.isElectron env.desktopSources⟩
  · intro hr
    obtain ⟨n, hc, hmem, _⟩ := startCapture_success_stream s env hr
    exact ⟨n, hc, hmem⟩
  · intro hnil hr1 hr2 hfresh2
    obtain ⟨n1, hc1, _, hl1⟩ := startCapture_success_stream s env hr1
    have hlnil : (stopCapture s).liveStreams = [] := stopCapture_liveStreams_nil s hnil
    rw [hlnil] at hl1
    obtain ⟨n2, hc2, _, hl2⟩ := startCapture_success_stream (startCapture s env).2 e2 hr2
    have hstop1 : (stopCapture (startCapture s env).2).liveStreams
        = ((startCapture s env).2.liveStreams).filter (fun x => x ≠ n1) := by
      unfold stopCapture
      rw [hc1]
    rw [hstop1, hl1] at hl2
    refine ⟨n2, hc2, hl2.trans (by simp), ?_⟩
    intro m hm
    exact startCapture_teardown (startCapture s env).2 e2 m hm hfresh2

/-- Witness for C1: starting twice from a clean world with fresh
environments leaves exactly the second stream live. -/
theorem claim_C1_witness :
    witnessStartState.currentStream = some 1 ∧
    FreshEnv witnessStartState sampleStartEnv ∧
    1 ∉ (startCapture witnessStartState sampleStartEnv).2.liveStreams ∧
    witnessStartState.liveStreams = [] ∧
    (startCapture witnessStartState sampleStartEnv).1 = true ∧
    (startCapture (startCapture witnessStartState sampleStartEnv).2 secondStartEnv).1 = true ∧
    FreshEnv (startCapture witnessStartState sampleStartEnv).2 secondStartEnv ∧
    ∃ n2, (startCapture (startCapture witnessStartState sampleStartEnv).2
        secondStartEnv).2.currentStream = some n2 ∧
      (startCapture (startCapture witnessStartState sampleStartEnv).2
        secondStartEnv).2.liveStreams = [n2] ∧
      ∀ m, (startCapture witnessStartState sampleStartEnv).2.currentStream = some m →
        m ∉ (startCapture (startCapture witnessStartState sampleStartEnv).2
          secondStartEnv).2.liveStreams := by
  have hf1 : FreshEnv witnessStartState sampleStartEnv := by
    intro n hn
    rcases hn with h | h | h <;> simp [sampleStartEnv] at h <;> subst h <;>
      exact ⟨by decide, by decide⟩
  have hf2 : FreshEnv (startCapture witnessStartState sampleStartEnv).2 secondStartEnv := by
    intro n hn
    rcases hn with h | h | h <;> simp [secondStartEnv, sampleStartEnv] at h <;> subst h <;>
      exact ⟨by decide, by decide⟩
  refine ⟨rfl, hf1, ?_, rfl, rfl, rfl, hf2, ?_⟩
  · exact (claim_C1_single_stream witnessStartState sampleStartEnv secondStartEnv
      none "" none sampleFrameEnv sampleAnalyzeEnv 0).1 1 rfl hf1
  · exact (claim_C1_single_stream witnessStartState sampleStartEnv secondStartEnv
      none "" none sampleFrameEnv sampleAnalyzeEnv 0).2.2.1 rfl rfl rfl hf2

end Vision
